import Mathlib

/-!
Shallow embedding of `src/sentry_slack/plugin.py` (the sentry-slack
notification plugin) and verification of its specification.

External collaborators (the plugin framework's option store, the tag
label lookup tables `TagKey`/`TagValue`, the standardize-key function,
the URL service and the HTTP transport) are modelled as inputs: options
become an explicit `Config` record, the label tables and standardize-key
function become an `Env` record, and each HTTP `POST` becomes a `Post`
value collected in program order.  Python strings become `String`,
`None`-able options become `Option String`, `encode('utf-8')` and
`json.dumps` are identities at this level of abstraction, and the
`AttributeError` raised by `None.split(',')` is modelled by the
`errored` flag of `NotifyResult` (posts issued before the error are
kept, matching program order).
-/

set_option autoImplicit false

namespace SentrySlack

/-- One entry of a Slack attachment's `fields` array: `{title, value, short}`. -/
structure Field where
  title : String
  value : String
  short : Bool
deriving DecidableEq, Repr

/-- The JSON payload built by `notify` (one attachment, flattened):
top-level `parse`, optional `username` / `channel` / `icon_url`, and the
attachment's `fallback`, `title`, `title_link`, `color`, `fields`. -/
structure Payload where
  parse : String
  fallback : String
  title : String
  title_link : String
  color : String
  fields : List Field
  username : Option String
  channel : Option String
  icon_url : Option String
deriving DecidableEq, Repr

/-- One `http.safe_urlopen(webhook, method='POST', data={'payload': ...})` call. -/
structure Post where
  url : String
  payload : Payload
deriving DecidableEq, Repr

/-- Result of a `notify` call: the POSTs issued in program order, and
whether the call ended in a runtime failure (`AttributeError` from
calling `.split(',')` on a `None` option). -/
structure NotifyResult where
  posts : List Post
  errored : Bool
deriving DecidableEq, Repr

/-- An alerting rule attached to the notification.  `edit_url` models the
absolute URI the external URL service produces for the rule's edit page. -/
structure Rule where
  edit_url : String
  label : String
deriving DecidableEq, Repr

/-- The event together with its group/project context, as `notify` reads it:
`message_short` is `event.message_short`, `culprit` is `group.culprit`
(`""` models an absent culprit), `level_display` is
`group.get_level_display()`, `absolute_url` is `group.get_absolute_url()`,
`team_name`/`project_name` feed `get_project_full_name`, and `tags` is the
raw `event.get_tags()` list of (key, value) pairs. -/
structure Event where
  message_short : String
  culprit : String
  level_display : String
  absolute_url : String
  team_name : String
  project_name : String
  tags : List (String × String)
deriving DecidableEq, Repr

/-- `notification`: the event plus the rules that triggered it. -/
structure Notification where
  event : Event
  rules : List Rule
deriving DecidableEq, Repr

/-- The per-project options read through `self.get_option`.  A `none`
models an unset option (`None`); booleans model the checkbox options. -/
structure Config where
  webhook : Option String
  username : Option String
  icon_url : Option String
  channel : Option String
  include_tags : Bool
  included_tag_keys : Option String
  excluded_tag_keys : Option String
  include_rules : Bool
  sort_on_tag : Bool
  send_to_root_too : Bool
  sort_on_tag_key : Option String
  group_1_tag_values : Option String
  group_1_channel : Option String
  group_2_tag_values : Option String
  group_2_channel : Option String
  group_3_tag_values : Option String
  group_3_channel : Option String

/-- The external lookup services used by `_get_tags` and the tag filter:
`keyLabels` models the `TagKey` label table, `valueLabels` the `TagValue`
label table, and `stdKey` the external `TagKey.get_standardized_key`. -/
structure Env where
  keyLabels : List (String × String)
  valueLabels : List ((String × String) × String)
  stdKey : String → String

/-- Python truthiness of an optional string: `None` and `''` are falsy. -/
def optTruthy (o : Option String) : Bool :=
  match o with
  | none => false
  | some s => s ≠ ""

/-- Python `option or default` for an optional string. -/
def pyOr (o : Option String) (d : String) : String :=
  match o with
  | none => d
  | some s => if s = "" then d else s

/-- Python `need in hay` on strings (substring test), on char lists. -/
def hasInfix (need : List Char) : List Char → Bool
  | [] => need.isEmpty
  | c :: t => need.isPrefixOf (c :: t) || hasInfix need t

/-- Drop leading `' '` characters (the effect of one side of `.strip(' ')`). -/
def dropSpaces : List Char → List Char
  | [] => []
  | c :: t => if c = ' ' then dropSpaces t else c :: t

/-- Python `s.strip(' ')`: remove leading and trailing space characters
(only `' '`, unlike the no-argument `.strip()`). -/
def stripSpaces (s : String) : String :=
  ⟨dropSpaces ((dropSpaces s.data.reverse).reverse)⟩

/-- Python `s.strip()`: remove leading and trailing whitespace. -/
def pyStrip (s : String) : String :=
  ⟨((s.data.dropWhile Char.isWhitespace).reverse.dropWhile Char.isWhitespace).reverse⟩

/-- Python `s.lower()` (on the ASCII range). -/
def pyLower (s : String) : String :=
  ⟨s.data.map Char.toLower⟩

/-- Split a char list at every occurrence of `c` (Python `str.split` on a
one-character separator keeps empty pieces, and `''.split(c) = ['']`). -/
def splitOnChar (c : Char) : List Char → List (List Char)
  | [] => [[]]
  | a :: t =>
    match splitOnChar c t with
    | [] => if a = c then [[], []] else [[a]]
    | h :: r => if a = c then [] :: h :: r else (a :: h) :: r

/-- Python `s.split(c)` for a single-character separator. -/
def pySplit (s : String) (c : Char) : List String :=
  (splitOnChar c s.data).map String.mk

/-- `get_project_full_name(project)`: `"{team} {name}"` unless the team
name already occurs inside the project name. -/
def get_project_full_name (teamName projName : String) : String :=
  if hasInfix teamName.data projName.data then projName
  else teamName ++ " " ++ projName

/-- The module-level `LEVEL_TO_COLOR` table. -/
def LEVEL_TO_COLOR : List (String × String) :=
  [("debug", "cfd3da"),
   ("info", "2788ce"),
   ("warning", "f18500"),
   ("error", "f43f20"),
   ("fatal", "d20f2a")]

/-- First-match association-list lookup (Python `dict.get` with a default
is `(alookup l k).getD d` for the dicts built here). -/
def alookup {α β : Type} [DecidableEq α] (l : List (α × β)) (k : α) : Option β :=
  (l.find? (fun p => p.1 = k)).map (fun p => p.2)

/-- `color_for_group`: `'#' + LEVEL_TO_COLOR.get(group.get_level_display(), 'error')`.
Note the dict-get default is the literal string `'error'`. -/
def color_for_group (level : String) : String :=
  "#" ++ (alookup LEVEL_TO_COLOR level).getD "error"

/-- `_get_tags`: each raw (key, value) pair becomes (key label or raw key,
value label or raw value); an event without tags yields the empty sequence. -/
def getTags (env : Env) (e : Event) : List (String × String) :=
  e.tags.map (fun p =>
    ((alookup env.keyLabels p.1).getD p.1,
     (alookup env.valueLabels (p.1, p.2)).getD p.2))

/-- `get_tag_list`: `None` for an unset/empty option, otherwise the
comma-split entries each trimmed and lower-cased (the Python set is
modelled as the list of entries; only membership is ever used). -/
def get_tag_list (option : Option String) : Option (List String) :=
  match option with
  | none => none
  | some s =>
    if s = "" then none
    else some ((pySplit s ',').map (fun tag => pyLower (pyStrip tag)))

/-- The tag-keeping rule as the spec words it, for comparison with the
code's skip-chain: if an included-tag-keys filter is configured, keep
only tags whose (lower-cased) key or standardized key is in it; if an
excluded-tag-keys filter is configured, drop tags whose key or
standardized key is in it, even when the include filter passes them. -/
def specKeepTag (cfg : Config) (std : String → String) (key : String) : Bool :=
  let included := (get_tag_list cfg.included_tag_keys).getD []
  let excluded := (get_tag_list cfg.excluded_tag_keys).getD []
  (decide (included = []) || decide (key ∈ included) || decide (std key ∈ included)) &&
  (decide (excluded = []) || (decide (key ∉ excluded) && decide (std key ∉ excluded)))

/-- `is_configured(project)`: true iff the `webhook` option is truthy. -/
def is_configured (cfg : Config) : Bool :=
  optTruthy cfg.webhook

/-- The Culprit field block: appended only when the culprit is non-empty
and differs from `event.message_short`. -/
def culpritFields (e : Event) : List Field :=
  if e.culprit = "" then []
  else if e.message_short = e.culprit then []
  else [⟨"Culprit", e.culprit, false⟩]

/-- The always-present Project field. -/
def projectField (e : Event) : Field :=
  ⟨"Project", get_project_full_name e.team_name e.project_name, true⟩

/-- The Triggered By field block: present when `include_rules` is on and
at least one rule fired; its value comma-joins `<link | label>` entries. -/
def rulesFields (cfg : Config) (n : Notification) : List Field :=
  if cfg.include_rules then
    if n.rules.isEmpty then []
    else [⟨"Triggered By",
           String.intercalate ", "
             (n.rules.map (fun r => "<" ++ r.edit_url ++ " | " ++ r.label ++ ">")),
           false⟩]
  else []

/-- The tag field block of `notify`: when `include_tags` is on, each
extracted (display key, display value) pair passes through the
include/exclude filters on its lower-cased key and standardized key, and
the survivors become short fields titled by the display key. -/
def tagFields (env : Env) (cfg : Config) (e : Event) : List Field :=
  if cfg.include_tags then
    let included := (get_tag_list cfg.included_tag_keys).getD []
    let excluded := (get_tag_list cfg.excluded_tag_keys).getD []
    (getTags env e).filterMap (fun p =>
      let key := pyLower p.1
      let stdkey := env.stdKey key
      if included ≠ [] ∧ key ∉ included ∧ stdkey ∉ included then none
      else if excluded ≠ [] ∧ (key ∈ excluded ∨ stdkey ∈ excluded) then none
      else some ⟨p.1, p.2, true⟩)
  else []

/-- The full field list in source order: Culprit?, Project, Triggered By?, tags. -/
def buildFields (env : Env) (cfg : Config) (n : Notification) : List Field :=
  culpritFields n.event ++ [projectField n.event]
    ++ rulesFields cfg n ++ tagFields env cfg n.event

/-- The payload as assembled by `notify` before delivery: `parse: 'none'`,
fallback `"[{project_full_name}] {title}"`, the group URL and color, the
field list, and `username` / `channel` / `icon_url` attached when truthy. -/
def buildPayload (env : Env) (cfg : Config) (n : Notification) : Payload :=
  let e := n.event
  let title := e.message_short
  let projectName := get_project_full_name e.team_name e.project_name
  let username := pyStrip (pyOr cfg.username "Sentry")
  let channel := pyStrip (pyOr cfg.channel "")
  { parse := "none"
    fallback := "[" ++ projectName ++ "] " ++ title
    title := title
    title_link := e.absolute_url
    color := color_for_group e.level_display
    fields := buildFields env cfg n
    username := if username = "" then none else some username
    channel := if channel = "" then none else some channel
    icon_url :=
      match cfg.icon_url with
      | none => none
      | some s => if s = "" then none else some s }

/-- `(self.get_option('sort_on_tag_key', project) or 'application_name').strip()`. -/
def sortKey (cfg : Config) : String :=
  pyStrip (pyOr cfg.sort_on_tag_key "application_name")

/-- `notify(notification)`: gate on `is_configured`; build the payload;
strip spaces off the webhook; then either POST once (no tag sorting) or
run the routing path: optional root send first, then build the three
routing groups (raising on a `None` tag-values option), find the routing
tag, and POST once per group whose value list contains the tag's value,
with that group's channel written into the payload. -/
def notify (env : Env) (cfg : Config) (n : Notification) : NotifyResult :=
  if is_configured cfg then
    let webhook := stripSpaces (cfg.webhook.getD "")
    let payload := buildPayload env cfg n
    if cfg.sort_on_tag then
      let rootPosts := if cfg.send_to_root_too then [⟨webhook, payload⟩] else []
      match cfg.group_1_tag_values, cfg.group_2_tag_values, cfg.group_3_tag_values with
      | some g1, some g2, some g3 =>
        let groups : List (List String × String) :=
          [(pySplit g1 ',', pyStrip (pyOr cfg.group_1_channel "")),
           (pySplit g2 ',', pyStrip (pyOr cfg.group_2_channel "")),
           (pySplit g3 ',', pyStrip (pyOr cfg.group_3_channel ""))]
        match (getTags env n.event).find? (fun p => sortKey cfg = p.1) with
        | none => ⟨rootPosts, false⟩
        | some p =>
          ⟨rootPosts ++ groups.filterMap (fun g =>
              if p.2 ∈ g.1 then
                some ⟨webhook, { payload with channel := some g.2 }⟩
              else none),
           false⟩
      | _, _, _ => ⟨rootPosts, true⟩
    else ⟨[⟨webhook, payload⟩], false⟩
  else ⟨[], false⟩

/-! Concrete fixtures used by the witness theorems. -/

/-- A concrete environment: one key label, one value label, identity
standardize-key. -/
def envW : Env :=
  ⟨[("env", "Environment")], [(("env", "prod"), "Production")], fun s => s⟩

/-- A concrete event carrying an `env` tag and an `application_name` tag. -/
def evW : Event :=
  ⟨"msg", "culp", "warning", "http://u", "Team", "Proj",
   [("env", "prod"), ("application_name", "app1")]⟩

/-- A concrete notification with no triggering rules. -/
def nW : Notification := ⟨evW, []⟩

/-- A concrete base configuration: configured webhook (with legacy
spaces), tag sorting on, root-too on, three routing groups. -/
def cfgW : Config :=
  { webhook := some "  https://x  "
    username := some ""
    icon_url := none
    channel := some " #gen "
    include_tags := true
    included_tag_keys := some "environment, release"
    excluded_tag_keys := none
    include_rules := false
    sort_on_tag := true
    send_to_root_too := true
    sort_on_tag_key := none
    group_1_tag_values := some "app1, app2"
    group_1_channel := some "#one"
    group_2_tag_values := some "app1"
    group_2_channel := some "#two"
    group_3_tag_values := some ""
    group_3_channel := none }

/-- `cfgW` with tag sorting disabled. -/
def cfgW5 : Config := { cfgW with sort_on_tag := false }

/-- `cfgW` with the second routing group's tag values unset. -/
def cfgW8 : Config := { cfgW with group_2_tag_values := none }

/-- `cfgW` with an exclusion filter that names the `environment` tag. -/
def cfgW2 : Config := { cfgW with excluded_tag_keys := some "environment" }

/-- `cfgW` with a routing key that no tag of `evW` carries. -/
def cfgW3 : Config := { cfgW with sort_on_tag_key := some "missing_key" }

/-- `cfgW` with group 1's value list `"a, b"` (so its entries are `"a"`
and `" b"`) and empty value strings for groups 2 and 3. -/
def cfgW10 : Config :=
  { cfgW with
    group_1_tag_values := some "a, b"
    group_2_tag_values := some ""
    group_3_tag_values := some "" }

/-- A notification whose routing tag value is the bare `"b"`. -/
def nW10 : Notification :=
  ⟨{ evW with tags := [("application_name", "b")] }, []⟩

end SentrySlack

namespace SentrySlack

/-- C1: evaluation of `color_for_group`.  Each of the five table levels
maps to `'#' + <its hex color>`, but an unmapped level such as
`"critical"` yields `"#error"` — the dict-get default is the literal
string `'error'`, not the error color — contradicting the claimed
fallback `"#f43f20"`. -/
theorem C1_color_for_group_eval :
    color_for_group "debug" = "#cfd3da" ∧
    color_for_group "info" = "#2788ce" ∧
    color_for_group "warning" = "#f18500" ∧
    color_for_group "error" = "#f43f20" ∧
    color_for_group "fatal" = "#d20f2a" ∧
    color_for_group "critical" = "#error" ∧
    ¬ color_for_group "critical" = "#f43f20" := by
  decide

/-- C5: with tag sorting disabled on a configured project, `notify`
issues exactly one POST, to the space-stripped webhook, and the payload
carries the trimmed default channel option when that is non-empty. -/
theorem C5_no_sort_single_post (env : Env) (cfg : Config) (n : Notification)
    (hconf : is_configured cfg = true) (hsort : cfg.sort_on_tag = false) :
    notify env cfg n =
      ⟨[⟨stripSpaces (cfg.webhook.getD ""), buildPayload env cfg n⟩], false⟩ ∧
    (buildPayload env cfg n).channel =
      (if pyStrip (pyOr cfg.channel "") = "" then none
       else some (pyStrip (pyOr cfg.channel ""))) := by
  refine ⟨?_, rfl⟩
  simp [notify, hconf, hsort]

/-- Witness for C5 at the concrete no-sorting configuration. -/
theorem C5_no_sort_single_post_witness :
    is_configured cfgW5 = true ∧ cfgW5.sort_on_tag = false ∧
    (notify envW cfgW5 nW =
        ⟨[⟨stripSpaces (cfgW5.webhook.getD ""), buildPayload envW cfgW5 nW⟩], false⟩ ∧
      (buildPayload envW cfgW5 nW).channel =
        (if pyStrip (pyOr cfgW5.channel "") = "" then none
         else some (pyStrip (pyOr cfgW5.channel "")))) :=
  ⟨by decide, rfl, C5_no_sort_single_post envW cfgW5 nW (by decide) rfl⟩

/-- C7: a project whose webhook option is unset is unconfigured, and
`notify` on it is a silent no-op: no POSTs, no error. -/
theorem C7_unconfigured_silent_noop (env : Env) (cfg : Config) (n : Notification)
    (h : cfg.webhook = none) :
    is_configured cfg = false ∧ notify env cfg n = ⟨[], false⟩ := by
  have hc : is_configured cfg = false := by simp [is_configured, h, optTruthy]
  refine ⟨hc, ?_⟩
  simp [notify, hc]

/-- Witness for C7 at a concrete unconfigured project. -/
theorem C7_unconfigured_silent_noop_witness :
    ({ cfgW with webhook := none } : Config).webhook = none ∧
    (is_configured { cfgW with webhook := none } = false ∧
      notify envW { cfgW with webhook := none } nW = ⟨[], false⟩) :=
  ⟨rfl, C7_unconfigured_silent_noop envW { cfgW with webhook := none } nW rfl⟩

/-- C8: with tag sorting enabled on a configured project, an unset
`group_{1,2,3}_tag_values` option makes `notify` end in a runtime
failure (`None.split(',')`), which propagates to the caller. -/
theorem C8_missing_group_values_raises (env : Env) (cfg : Config) (n : Notification)
    (hconf : is_configured cfg = true) (hsort : cfg.sort_on_tag = true)
    (hmiss : cfg.group_1_tag_values = none ∨ cfg.group_2_tag_values = none ∨
      cfg.group_3_tag_values = none) :
    (notify env cfg n).errored = true := by
  cases h1 : cfg.group_1_tag_values <;> cases h2 : cfg.group_2_tag_values <;>
    cases h3 : cfg.group_3_tag_values <;>
      simp_all [notify, hconf, hsort]

/-- C3: with tag sorting enabled, when no extracted tag's key equals the
routing key, the POSTs of `notify` are exactly the root send (present
iff `send_to_root_too` is on, and carrying the trimmed default channel
option in its payload) — zero routed POSTs, whether or not the group
option lookups would have failed. -/
theorem C3_no_matching_tag_root_only (env : Env) (cfg : Config) (n : Notification)
    (hconf : is_configured cfg = true) (hsort : cfg.sort_on_tag = true)
    (hfind : (getTags env n.event).find? (fun p => sortKey cfg = p.1) = none) :
    (notify env cfg n).posts =
      (if cfg.send_to_root_too then
        [⟨stripSpaces (cfg.webhook.getD ""), buildPayload env cfg n⟩]
       else []) ∧
    (buildPayload env cfg n).channel =
      (if pyStrip (pyOr cfg.channel "") = "" then none
       else some (pyStrip (pyOr cfg.channel ""))) := by
  refine ⟨?_, rfl⟩
  cases h1 : cfg.group_1_tag_values <;> cases h2 : cfg.group_2_tag_values <;>
    cases h3 : cfg.group_3_tag_values <;>
      simp [notify, hconf, hsort, h1, h2, h3, hfind]

/-- Witness for C3 at the concrete configuration whose routing key
matches no tag of the event. -/
theorem C3_no_matching_tag_root_only_witness :
    is_configured cfgW3 = true ∧ cfgW3.sort_on_tag = true ∧
    (getTags envW nW.event).find? (fun p => sortKey cfgW3 = p.1) = none ∧
    ((notify envW cfgW3 nW).posts =
      (if cfgW3.send_to_root_too then
        [⟨stripSpaces (cfgW3.webhook.getD ""), buildPayload envW cfgW3 nW⟩]
       else []) ∧
    (buildPayload envW cfgW3 nW).channel =
      (if pyStrip (pyOr cfgW3.channel "") = "" then none
       else some (pyStrip (pyOr cfgW3.channel "")))) :=
  ⟨by decide, rfl, by decide,
    C3_no_matching_tag_root_only envW cfgW3 nW (by decide) rfl (by decide)⟩

/-- C4: with tag sorting enabled, all group options present and a routing
tag found, `notify` issues the optional root send followed by one POST
per routing group whose value list contains the tag's value, in group
order 1, 2, 3, each with that group's trimmed channel in the payload —
no first-match short-circuit. -/
theorem C4_multi_group_fanout (env : Env) (cfg : Config) (n : Notification)
    (g1 g2 g3 : String) (pr : String × String)
    (hconf : is_configured cfg = true) (hsort : cfg.sort_on_tag = true)
    (h1 : cfg.group_1_tag_values = some g1)
    (h2 : cfg.group_2_tag_values = some g2)
    (h3 : cfg.group_3_tag_values = some g3)
    (hfind : (getTags env n.event).find? (fun p => sortKey cfg = p.1) = some pr) :
    (notify env cfg n).posts =
      (if cfg.send_to_root_too then
        [⟨stripSpaces (cfg.webhook.getD ""), buildPayload env cfg n⟩] else [])
      ++ ([(pySplit g1 ',', pyStrip (pyOr cfg.group_1_channel "")),
           (pySplit g2 ',', pyStrip (pyOr cfg.group_2_channel "")),
           (pySplit g3 ',', pyStrip (pyOr cfg.group_3_channel ""))].filterMap
            (fun g => if pr.2 ∈ g.1 then
                some ⟨stripSpaces (cfg.webhook.getD ""),
                      { buildPayload env cfg n with channel := some g.2 }⟩
              else none)) ∧
    ((notify env cfg n).posts.drop (if cfg.send_to_root_too then 1 else 0)).map
        (fun p => p.payload.channel) =
      ([(pySplit g1 ',', pyStrip (pyOr cfg.group_1_channel "")),
        (pySplit g2 ',', pyStrip (pyOr cfg.group_2_channel "")),
        (pySplit g3 ',', pyStrip (pyOr cfg.group_3_channel ""))].filter
         (fun g => pr.2 ∈ g.1)).map (fun g => some g.2) := by
  have hposts : (notify env cfg n).posts =
      (if cfg.send_to_root_too then
        [⟨stripSpaces (cfg.webhook.getD ""), buildPayload env cfg n⟩] else [])
      ++ ([(pySplit g1 ',', pyStrip (pyOr cfg.group_1_channel "")),
           (pySplit g2 ',', pyStrip (pyOr cfg.group_2_channel "")),
           (pySplit g3 ',', pyStrip (pyOr cfg.group_3_channel ""))].filterMap
            (fun g => if pr.2 ∈ g.1 then
                some ⟨stripSpaces (cfg.webhook.getD ""),
                      { buildPayload env cfg n with channel := some g.2 }⟩
              else none)) := by
    simp only [notify, hconf, hsort, h1, h2, h3, hfind, if_true]
  refine ⟨hposts, ?_⟩
  rw [hposts]
  by_cases hb : cfg.send_to_root_too <;>
    by_cases m1 : pr.2 ∈ pySplit g1 ',' <;>
    by_cases m2 : pr.2 ∈ pySplit g2 ',' <;>
    by_cases m3 : pr.2 ∈ pySplit g3 ',' <;>
      simp [hb, m1, m2, m3]

/-- Witness for C4: the routing value `"app1"` sits in both group 1's and
group 2's value lists, so two routed POSTs follow the root send. -/
theorem C4_multi_group_fanout_witness :
    is_configured cfgW = true ∧ cfgW.sort_on_tag = true ∧
    cfgW.group_1_tag_values = some "app1, app2" ∧
    cfgW.group_2_tag_values = some "app1" ∧
    cfgW.group_3_tag_values = some "" ∧
    (getTags envW nW.event).find? (fun p => sortKey cfgW = p.1) =
      some ("application_name", "app1") ∧
    ((notify envW cfgW nW).posts.drop (if cfgW.send_to_root_too then 1 else 0)).map
        (fun p => p.payload.channel) =
      ([(pySplit "app1, app2" ',', pyStrip (pyOr cfgW.group_1_channel "")),
        (pySplit "app1" ',', pyStrip (pyOr cfgW.group_2_channel "")),
        (pySplit "" ',', pyStrip (pyOr cfgW.group_3_channel ""))].filter
         (fun g => ("application_name", "app1").2 ∈ g.1)).map (fun g => some g.2) :=
  ⟨by decide, rfl, rfl, rfl, rfl, by decide,
    (C4_multi_group_fanout envW cfgW nW "app1, app2" "app1" ""
      ("application_name", "app1") (by decide) rfl rfl rfl rfl (by decide)).2⟩

/-- Every Triggered By field is titled `"Triggered By"`. -/
theorem rulesFields_title {cfg : Config} {n : Notification} {f : Field}
    (h : f ∈ rulesFields cfg n) : f.title = "Triggered By" := by
  unfold rulesFields at h
  split at h
  · split at h
    · simp at h
    · simp only [List.mem_singleton] at h
      subst h; rfl
  · simp at h

/-- Every tag field is short-form. -/
theorem tagFields_short {env : Env} {cfg : Config} {e : Event} {f : Field}
    (h : f ∈ tagFields env cfg e) : f.short = true := by
  unfold tagFields at h
  split at h
  · simp only [List.mem_filterMap] at h
    obtain ⟨p, hp, hf⟩ := h
    split at hf
    · cases hf
    · split at hf
      · cases hf
      · injection hf with h
        subst h; rfl
  · simp at h

/-- A long-form field titled `"Culprit"` can only come from the culprit
block of the field list. -/
theorem culprit_mem_buildFields (env : Env) (cfg : Config) (n : Notification)
    (v : String) :
    ((⟨"Culprit", v, false⟩ : Field) ∈ buildFields env cfg n) ↔
      (⟨"Culprit", v, false⟩ : Field) ∈ culpritFields n.event := by
  unfold buildFields
  constructor
  · intro h
    rcases List.mem_append.mp h with h' | htag
    · rcases List.mem_append.mp h' with h'' | hrule
      · rcases List.mem_append.mp h'' with hc | hpf
        · exact hc
        · exfalso
          simp [projectField] at hpf
      · exact absurd (rulesFields_title hrule) (by simp)
    · exact absurd (tagFields_short htag) (by simp)
  · intro h
    exact List.mem_append.mpr (Or.inl (List.mem_append.mpr
      (Or.inl (List.mem_append.mpr (Or.inl h)))))

/-- The payload does not read the webhook option. -/
theorem buildPayload_webhook (env : Env) (cfg : Config) (n : Notification)
    (w : Option String) :
    buildPayload env { cfg with webhook := w } n = buildPayload env cfg n := rfl

/-- The routing key does not read the webhook option. -/
theorem sortKey_webhook (cfg : Config) (w : Option String) :
    sortKey { cfg with webhook := w } = sortKey cfg := rfl

/-- Every POST issued by `notify` targets the space-stripped webhook. -/
theorem notify_post_url (env : Env) (cfg : Config) (n : Notification) (p : Post)
    (hp : p ∈ (notify env cfg n).posts) :
    p.url = stripSpaces (cfg.webhook.getD "") := by
  simp only [notify] at hp
  split at hp
  · split at hp
    · split at hp
      · split at hp
        · -- routing key found in no tag: only the optional root send
          simp only at hp
          split at hp
          · simp only [List.mem_singleton] at hp
            subst hp; rfl
          · simp at hp
        · -- routing tag found: root send plus routed sends
          simp only [List.mem_append] at hp
          rcases hp with hp | hp
          · split at hp
            · simp only [List.mem_singleton] at hp
              subst hp; rfl
            · simp at hp
          · simp only [List.mem_filterMap] at hp
            obtain ⟨g, hg, hfg⟩ := hp
            split at hfg
            · injection hfg with h
              subst h; rfl
            · cases hfg
      · -- a group option is missing: only the optional root send
        simp only at hp
        split at hp
        · simp only [List.mem_singleton] at hp
          subst hp; rfl
        · simp at hp
    · -- no tag sorting: the single POST
      simp only [List.mem_singleton] at hp
      subst hp; rfl
  · simp at hp

/-- A filterMap that keeps everything is a map. -/
theorem filterMap_some_eq_map (l : List (String × String)) :
    l.filterMap (fun p => some (⟨p.1, p.2, true⟩ : Field)) =
      l.map (fun p => (⟨p.1, p.2, true⟩ : Field)) := by
  induction l with
  | nil => rfl
  | cons p t ih => simp [List.filterMap_cons, ih]

/-- The skip-chain of the tag loop agrees with a conjunctive keep
predicate, for any include/exclude sets and standardize function. -/
theorem filterMap_keep (std : String → String) (I E : List String)
    (l : List (String × String)) :
    (l.filterMap (fun p =>
      if I ≠ [] ∧ pyLower p.1 ∉ I ∧ std (pyLower p.1) ∉ I then none
      else if E ≠ [] ∧ (pyLower p.1 ∈ E ∨ std (pyLower p.1) ∈ E) then none
      else some (⟨p.1, p.2, true⟩ : Field))) =
    (l.filter (fun p =>
      (decide (I = []) || decide (pyLower p.1 ∈ I) ||
        decide (std (pyLower p.1) ∈ I)) &&
      (decide (E = []) || (decide (pyLower p.1 ∉ E) &&
        decide (std (pyLower p.1) ∉ E))))).map
      (fun p => (⟨p.1, p.2, true⟩ : Field)) := by
  induction l with
  | nil => rfl
  | cons p t ih =>
    by_cases h1 : I = [] <;>
    by_cases h2 : pyLower p.1 ∈ I <;>
    by_cases h3 : std (pyLower p.1) ∈ I <;>
    by_cases h4 : E = [] <;>
    by_cases h5 : pyLower p.1 ∈ E <;>
    by_cases h6 : std (pyLower p.1) ∈ E <;>
      simp_all [List.filterMap_cons, List.filter_cons, filterMap_some_eq_map]

/-- C2: with `include_tags` on, the appended tag fields are exactly the
extracted tags kept by the spec's predicate — raw-or-standardized key in
the include set when one is configured, and not in the exclude set when
one is configured — as short fields titled by the display key; and the
exclude filter drops a key even when the include filter would keep it. -/
theorem C2_tag_filter_matches_spec (env : Env) (cfg : Config) (e : Event)
    (h : cfg.include_tags = true) :
    tagFields env cfg e =
      ((getTags env e).filter
        (fun p => specKeepTag cfg env.stdKey (pyLower p.1))).map
        (fun p => (⟨p.1, p.2, true⟩ : Field)) ∧
    (∀ key : String,
      (get_tag_list cfg.excluded_tag_keys).getD [] ≠ [] →
      key ∈ (get_tag_list cfg.excluded_tag_keys).getD [] →
      specKeepTag cfg env.stdKey key = false) := by
  constructor
  · have ht : tagFields env cfg e =
        (getTags env e).filterMap (fun p =>
          if (get_tag_list cfg.included_tag_keys).getD [] ≠ [] ∧
              pyLower p.1 ∉ (get_tag_list cfg.included_tag_keys).getD [] ∧
              env.stdKey (pyLower p.1) ∉
                (get_tag_list cfg.included_tag_keys).getD [] then none
          else if (get_tag_list cfg.excluded_tag_keys).getD [] ≠ [] ∧
              (pyLower p.1 ∈ (get_tag_list cfg.excluded_tag_keys).getD [] ∨
               env.stdKey (pyLower p.1) ∈
                 (get_tag_list cfg.excluded_tag_keys).getD []) then none
          else some (⟨p.1, p.2, true⟩ : Field)) := by
      simp [tagFields, h]
    rw [ht, filterMap_keep env.stdKey ((get_tag_list cfg.included_tag_keys).getD [])
      ((get_tag_list cfg.excluded_tag_keys).getD []) (getTags env e)]
    simp only [specKeepTag]
  · intro key hne hmem
    simp [specKeepTag, hne, hmem]

/-- Witness for C2 at a configuration with both an include filter
(`"environment, release"`) and an exclude filter (`"environment"`). -/
theorem C2_tag_filter_matches_spec_witness :
    cfgW2.include_tags = true ∧
    (tagFields envW cfgW2 evW =
      ((getTags envW evW).filter
        (fun p => specKeepTag cfgW2 envW.stdKey (pyLower p.1))).map
        (fun p => (⟨p.1, p.2, true⟩ : Field)) ∧
    (∀ key : String,
      (get_tag_list cfgW2.excluded_tag_keys).getD [] ≠ [] →
      key ∈ (get_tag_list cfgW2.excluded_tag_keys).getD [] →
      specKeepTag cfgW2 envW.stdKey key = false)) :=
  ⟨rfl, C2_tag_filter_matches_spec envW cfgW2 evW rfl⟩

/-- C6: the long-form Culprit field is in the payload's field list iff
the culprit is non-empty and differs from the event's short title; it is
the first field when present, and no long-form `"Culprit"` field of any
value appears when the culprit is empty or equal to the title. -/
theorem C6_culprit_field (env : Env) (cfg : Config) (n : Notification) :
    ((⟨"Culprit", n.event.culprit, false⟩ : Field) ∈ (buildPayload env cfg n).fields ↔
      (n.event.culprit ≠ "" ∧ n.event.message_short ≠ n.event.culprit)) ∧
    (n.event.culprit ≠ "" → n.event.message_short ≠ n.event.culprit →
      (buildPayload env cfg n).fields.head? =
        some ⟨"Culprit", n.event.culprit, false⟩) ∧
    ((n.event.culprit = "" ∨ n.event.message_short = n.event.culprit) →
      ∀ v : String, (⟨"Culprit", v, false⟩ : Field) ∉ (buildPayload env cfg n).fields) := by
  have hfields : (buildPayload env cfg n).fields = buildFields env cfg n := rfl
  refine ⟨?_, ?_, ?_⟩
  · rw [hfields, culprit_mem_buildFields]
    by_cases hc : n.event.culprit = ""
    · simp [culpritFields, hc]
    · by_cases hm : n.event.message_short = n.event.culprit
      · simp [culpritFields, hc, hm]
      · simp [culpritFields, hc, hm]
  · intro hc hm
    rw [hfields]
    simp [buildFields, culpritFields, hc, hm]
  · intro hcm v
    rw [hfields, culprit_mem_buildFields]
    rcases hcm with hc | hm
    · simp [culpritFields, hc]
    · by_cases hc : n.event.culprit = ""
      · simp [culpritFields, hc]
      · simp [culpritFields, hc, hm]

/-- Witness for C6: `evW` has a non-empty culprit differing from its
title, so the Culprit field leads the field list. -/
theorem C6_culprit_field_witness :
    nW.event.culprit ≠ "" ∧ nW.event.message_short ≠ nW.event.culprit ∧
    (buildPayload envW cfgW nW).fields.head? =
      some ⟨"Culprit", nW.event.culprit, false⟩ :=
  ⟨by decide, by decide,
    (C6_culprit_field envW cfgW nW).2.1 (by decide) (by decide)⟩

/-- C9: the webhook URL is stripped of leading/trailing spaces before
every POST: two configurations whose webhooks strip to the same string
produce identical `notify` results, and every issued POST targets the
stripped URL. -/
theorem C9_webhook_space_trim (env : Env) (cfg : Config) (n : Notification)
    (w1 w2 : String) (hw1 : w1 ≠ "") (hw2 : w2 ≠ "")
    (hstrip : stripSpaces w1 = stripSpaces w2) :
    notify env { cfg with webhook := some w1 } n =
      notify env { cfg with webhook := some w2 } n ∧
    ∀ p ∈ (notify env { cfg with webhook := some w1 } n).posts,
      p.url = stripSpaces w1 := by
  constructor
  · have hc1 : is_configured { cfg with webhook := some w1 } = true := by
      simp [is_configured, optTruthy, hw1]
    have hc2 : is_configured { cfg with webhook := some w2 } = true := by
      simp [is_configured, optTruthy, hw2]
    simp only [notify, hc1, hc2, if_true, buildPayload_webhook, sortKey_webhook,
      Option.getD_some, hstrip]
  · intro p hp
    exact notify_post_url env { cfg with webhook := some w1 } n p hp

/-- Witness for C9: the padded and bare webhook URLs deliver identically. -/
theorem C9_webhook_space_trim_witness :
    ("  https://x  " : String) ≠ "" ∧ ("https://x" : String) ≠ "" ∧
    stripSpaces "  https://x  " = stripSpaces "https://x" ∧
    notify envW { cfgW with webhook := some "  https://x  " } nW =
      notify envW { cfgW with webhook := some "https://x" } nW :=
  ⟨by decide, by decide, by decide,
    (C9_webhook_space_trim envW cfgW nW "  https://x  " "https://x"
      (by decide) (by decide) (by decide)).1⟩

/-- C10: the group value option `"a, b"` is comma-split without trimming
or lower-casing into `["a", " b"]` (whereas `get_tag_list` yields
`["a", "b"]`), and the routed-send test is exact string equality against
those entries: with groups 2 and 3 holding only the empty entry, a
routed POST happens iff the routing value is exactly `"a"` or `" b"` —
the bare `"b"` matches nothing. -/
theorem C10_group_values_no_trim (env : Env) (cfg : Config) (n : Notification)
    (k v : String)
    (hconf : is_configured cfg = true) (hsort : cfg.sort_on_tag = true)
    (hg1 : cfg.group_1_tag_values = some "a, b")
    (hg2 : cfg.group_2_tag_values = some "")
    (hg3 : cfg.group_3_tag_values = some "")
    (hfind : (getTags env n.event).find? (fun p => sortKey cfg = p.1) = some (k, v))
    (hv : v ≠ "") :
    pySplit "a, b" ',' = ["a", " b"] ∧
    get_tag_list (some "a, b") = some ["a", "b"] ∧
    (notify env cfg n).posts.length =
      (if cfg.send_to_root_too then 1 else 0) +
      (if v = "a" ∨ v = " b" then 1 else 0) := by
  refine ⟨by decide, by decide, ?_⟩
  have hsp : pySplit "a, b" ',' = ["a", " b"] := by decide
  have hsp0 : pySplit "" ',' = [""] := by decide
  by_cases hb : cfg.send_to_root_too = true <;>
    by_cases hm : v = "a" ∨ v = " b" <;>
      simp [notify, hconf, hsort, hg1, hg2, hg3, hfind, hb, hm, hv, hsp, hsp0]

/-- Witness for C10: the routing value `"b"` produces no routed POST
even though `"b"` is an entry of the trimmed `get_tag_list` parse. -/
theorem C10_group_values_no_trim_witness :
    is_configured cfgW10 = true ∧ cfgW10.sort_on_tag = true ∧
    cfgW10.group_1_tag_values = some "a, b" ∧
    cfgW10.group_2_tag_values = some "" ∧
    cfgW10.group_3_tag_values = some "" ∧
    (getTags envW nW10.event).find? (fun p => sortKey cfgW10 = p.1) =
      some ("application_name", "b") ∧
    ("b" : String) ≠ "" ∧
    (pySplit "a, b" ',' = ["a", " b"] ∧
      get_tag_list (some "a, b") = some ["a", "b"] ∧
      (notify envW cfgW10 nW10).posts.length =
        (if cfgW10.send_to_root_too then 1 else 0) +
        (if ("b" : String) = "a" ∨ ("b" : String) = " b" then 1 else 0)) :=
  ⟨by decide, rfl, rfl, rfl, rfl, by decide, by decide,
    C10_group_values_no_trim envW cfgW10 nW10 "application_name" "b"
      (by decide) rfl rfl rfl rfl (by decide) (by decide)⟩

/-- Witness for C8 at the concrete configuration missing group 2's values. -/
theorem C8_missing_group_values_raises_witness :
    is_configured cfgW8 = true ∧ cfgW8.sort_on_tag = true ∧
    (cfgW8.group_1_tag_values = none ∨ cfgW8.group_2_tag_values = none ∨
      cfgW8.group_3_tag_values = none) ∧
    (notify envW cfgW8 nW).errored = true :=
  ⟨by decide, rfl, Or.inr (Or.inl rfl),
    C8_missing_group_values_raises envW cfgW8 nW (by decide) rfl
      (Or.inr (Or.inl rfl))⟩

end SentrySlack
